import Mathlib

/-!
Verification of the webrtc helpers module (packages/common/src/webrtc/helpers.ts):
the canvas geometry normalizer mutateCanvasInfoData, the layout catalog merger
mungeLayoutList with its reducer and comparator, and the media constraint
resolver getMediaConstraints.

Modelling conventions: JS numbers are embedded as Rat (for geometry values) or
Int (for integral ids and flags); JS strings as String; optional / possibly
absent fields as Option; the unknown passthrough properties of an object as an
association list in a rest field. Fallible external promises are modelled as
Option-returning functions. Where the function mutates a caller-owned object
through an alias, the embedding returns the post-call state of the caller's
options alongside the result, so the mutation is observable.
-/

/-- Modelled from the spec: roundToFixed from util/helpers (not part of the
given sources) rounds a number to two decimal places, round half away from
zero, returning a number again. First the surrounding integer rounding. -/
def roundHalfAway (q : Rat) : Int :=
  if 0 ≤ q then ⌊q + 1/2⌋ else -⌊-q + 1/2⌋

/-- Modelled from the spec: two-decimal rounding of util/helpers roundToFixed. -/
def roundToFixed (value : Rat) : Rat :=
  ((roundHalfAway (value * 100) : Int) : Rat) / 100

/-- Modelled from the spec: JS template-literal printing of a number that is a
whole count of hundredths (the output range of roundToFixed): the integer part,
then a dot and the fractional digits with trailing zeros dropped, no digits at
all for a whole number, and a leading minus sign for negative values. -/
def numToString (q : Rat) : String :=
  let n : Int := ⌊q * 100⌋
  let sign := if n < 0 then "-" else ""
  let m : Nat := n.natAbs
  let ip : Nat := m / 100
  let fp : Nat := m % 100
  if fp = 0 then
    sign ++ toString ip
  else if fp % 10 = 0 then
    sign ++ toString ip ++ "." ++ toString (fp / 10)
  else
    sign ++ toString ip ++ "." ++ (if fp < 10 then "0" else "") ++ toString fp

/-- A raw per-participant layout as delivered by the signaling server
(IVertoCanvasLayout): absolute units plus passthrough fields. -/
structure IVertoCanvasLayout where
  memberID : Int
  audioPOS : String
  xPOS : Int
  yPOS : Int
  x : Rat
  y : Rat
  scale : Rat
  hscale : Rat
  overlap : Int
  rest : List (String × String)
deriving DecidableEq

/-- A raw canvas description (IVertoCanvasInfo). -/
structure IVertoCanvasInfo where
  canvasID : Int
  layoutFloorID : Int
  scale : Rat
  canvasLayouts : List IVertoCanvasLayout
  rest : List (String × String)
deriving DecidableEq

/-- A normalized per-participant layout (ICanvasLayout): percentage strings
plus the renamed and the spread-through fields of the raw layout. -/
structure ICanvasLayout where
  startX : String
  startY : String
  percentageWidth : String
  percentageHeight : String
  participantId : String
  audioPos : String
  xPos : Int
  yPos : Int
  x : Rat
  y : Rat
  scale : Rat
  hscale : Rat
  overlap : Int
  rest : List (String × String)
deriving DecidableEq

/-- A normalized canvas description (ICanvasInfo). -/
structure ICanvasInfo where
  canvasId : Int
  layoutFloorId : Int
  scale : Rat
  canvasLayouts : List ICanvasLayout
  layoutOverlap : Bool
  rest : List (String × String)
deriving DecidableEq

/-- The per-layout body of the loop in mutateCanvasInfoData: the four
percentage strings, the stringified member id, the renamed audioPOS, xPOS and
yPOS, and the rest of the raw layout spread into the output verbatim. -/
def mutateCanvasLayout (scale : Rat) (layout : IVertoCanvasLayout) : ICanvasLayout :=
  { startX := numToString (roundToFixed (layout.x / scale * 100)) ++ "%"
    startY := numToString (roundToFixed (layout.y / scale * 100)) ++ "%"
    percentageWidth := numToString (roundToFixed (layout.scale / scale * 100)) ++ "%"
    percentageHeight := numToString (roundToFixed (layout.hscale / scale * 100)) ++ "%"
    participantId := toString layout.memberID
    audioPos := layout.audioPOS
    xPos := layout.xPOS
    yPos := layout.yPOS
    x := layout.x
    y := layout.y
    scale := layout.scale
    hscale := layout.hscale
    overlap := layout.overlap
    rest := layout.rest }

/-- mutateCanvasInfoData from helpers.ts: renames canvasID and layoutFloorID,
maps the per-layout normalization over canvasLayouts in order, and computes
layoutOverlap by or-ing overlap strict-equals-one across the loop. -/
def mutateCanvasInfoData (canvasInfo : IVertoCanvasInfo) : ICanvasInfo :=
  { canvasId := canvasInfo.canvasID
    layoutFloorId := canvasInfo.layoutFloorID
    scale := canvasInfo.scale
    canvasLayouts := canvasInfo.canvasLayouts.map (mutateCanvasLayout canvasInfo.scale)
    layoutOverlap :=
      canvasInfo.canvasLayouts.foldl (fun acc layout => acc || decide (layout.overlap = 1)) false
    rest := canvasInfo.rest }

lemma foldl_or_overlap (l : List IVertoCanvasLayout) (b : Bool) :
    l.foldl (fun acc layout => acc || decide (layout.overlap = 1)) b =
      (b || l.any (fun layout => decide (layout.overlap = 1))) := by
  induction l generalizing b with
  | nil => simp
  | cons hd tl ih => simp [List.foldl_cons, ih, Bool.or_assoc]

/-- A canvas whose layouts carry the given overlap values and nothing else of
interest, used for the concrete overlap examples. -/
def overlapCanvas (os : List Int) : IVertoCanvasInfo :=
  { canvasID := 0
    layoutFloorID := 0
    scale := 1
    canvasLayouts := os.map (fun o =>
      { memberID := 0, audioPOS := "", xPOS := 0, yPOS := 0,
        x := 0, y := 0, scale := 0, hscale := 0, overlap := o, rest := [] })
    rest := [] }

/-- C1: for a canvas with positive scale, mutateCanvasInfoData keeps the length
and order of canvasLayouts and builds each entry from the input layout at the
same index by the four percentage formulas (two-decimal rounding) and the
stringified member id; concretely scale 200 with x 50 prints 25 percent and
scale 3 with x 1 prints 33.33 percent. -/
theorem C1_canvas_normalization (c : IVertoCanvasInfo) (_h : 0 < c.scale) :
    (mutateCanvasInfoData c).canvasLayouts.length = c.canvasLayouts.length ∧
    (mutateCanvasInfoData c).canvasLayouts = c.canvasLayouts.map (fun l =>
      { startX := numToString (roundToFixed (l.x / c.scale * 100)) ++ "%"
        startY := numToString (roundToFixed (l.y / c.scale * 100)) ++ "%"
        percentageWidth := numToString (roundToFixed (l.scale / c.scale * 100)) ++ "%"
        percentageHeight := numToString (roundToFixed (l.hscale / c.scale * 100)) ++ "%"
        participantId := toString l.memberID
        audioPos := l.audioPOS
        xPos := l.xPOS
        yPos := l.yPOS
        x := l.x
        y := l.y
        scale := l.scale
        hscale := l.hscale
        overlap := l.overlap
        rest := l.rest }) ∧
    numToString (roundToFixed ((50 : Rat) / 200 * 100)) ++ "%" = "25%" ∧
    numToString (roundToFixed ((1 : Rat) / 3 * 100)) ++ "%" = "33.33%" := by
  refine ⟨by simp [mutateCanvasInfoData], rfl, ?_, ?_⟩
  · norm_num [numToString, roundToFixed, roundHalfAway]; rfl
  · norm_num [numToString, roundToFixed, roundHalfAway]; rfl

/-- A concrete canvas with scale 200 and one layout at x 50 used to witness C1. -/
def canvasA : IVertoCanvasInfo :=
  { canvasID := 1
    layoutFloorID := 0
    scale := 200
    canvasLayouts := [
      { memberID := 7, audioPOS := "c", xPOS := 3, yPOS := 4,
        x := 50, y := 50, scale := 100, hscale := 50, overlap := 0, rest := [("r","s")] }]
    rest := [("reserved","1")] }

/-- Witness for C1 at the concrete canvas canvasA. -/
theorem C1_canvas_normalization_witness :
    0 < canvasA.scale ∧
    ((mutateCanvasInfoData canvasA).canvasLayouts.length = canvasA.canvasLayouts.length ∧
    (mutateCanvasInfoData canvasA).canvasLayouts = canvasA.canvasLayouts.map (fun l =>
      { startX := numToString (roundToFixed (l.x / canvasA.scale * 100)) ++ "%"
        startY := numToString (roundToFixed (l.y / canvasA.scale * 100)) ++ "%"
        percentageWidth := numToString (roundToFixed (l.scale / canvasA.scale * 100)) ++ "%"
        percentageHeight := numToString (roundToFixed (l.hscale / canvasA.scale * 100)) ++ "%"
        participantId := toString l.memberID
        audioPos := l.audioPOS
        xPos := l.xPOS
        yPos := l.yPOS
        x := l.x
        y := l.y
        scale := l.scale
        hscale := l.hscale
        overlap := l.overlap
        rest := l.rest }) ∧
    numToString (roundToFixed ((50 : Rat) / 200 * 100)) ++ "%" = "25%" ∧
    numToString (roundToFixed ((1 : Rat) / 3 * 100)) ++ "%" = "33.33%") :=
  ⟨by norm_num [canvasA], C1_canvas_normalization canvasA (by norm_num [canvasA])⟩

/-- C2: layoutOverlap is true exactly when some input layout has overlap
strictly equal to one; overlap sequences 0 0 1, 0 0 0 and 0 0 2 give true,
false and false respectively. -/
theorem C2_layout_overlap (c : IVertoCanvasInfo) :
    ((mutateCanvasInfoData c).layoutOverlap = true ↔
      ∃ l ∈ c.canvasLayouts, l.overlap = 1) ∧
    (mutateCanvasInfoData (overlapCanvas [0, 0, 1])).layoutOverlap = true ∧
    (mutateCanvasInfoData (overlapCanvas [0, 0, 0])).layoutOverlap = false ∧
    (mutateCanvasInfoData (overlapCanvas [0, 0, 2])).layoutOverlap = false := by
  refine ⟨?_, by decide, by decide, by decide⟩
  rw [show (mutateCanvasInfoData c).layoutOverlap =
      c.canvasLayouts.foldl (fun acc layout => acc || decide (layout.overlap = 1)) false from rfl]
  rw [foldl_or_overlap]
  simp [List.any_eq_true]

/-- A canvas with scale zero and no layouts, used to refute C3. -/
def zeroScaleCanvas : IVertoCanvasInfo :=
  { canvasID := 9
    layoutFloorID := 2
    scale := 0
    canvasLayouts := []
    rest := [("k", "v")] }

/-- Counterexample to C3: with scale zero, mutateCanvasInfoData does not fail
with an InvalidArgument error; it returns an ordinary normalized record (the
source function body contains no validation and no throw at all). -/
theorem C3_counterexample :
    mutateCanvasInfoData zeroScaleCanvas =
      { canvasId := 9, layoutFloorId := 2, scale := 0, canvasLayouts := [],
        layoutOverlap := false, rest := [("k", "v")] } := rfl

/-- C3 amended: mutateCanvasInfoData performs no scale validation and cannot
fail; with scale zero it still returns a record of the usual shape, passing
the zero scale through, preserving the layout count, and computing
layoutOverlap by the usual rule. -/
theorem C3_amended_no_failure (c : IVertoCanvasInfo) (h : c.scale = 0) :
    (mutateCanvasInfoData c).scale = 0 ∧
    (mutateCanvasInfoData c).canvasLayouts.length = c.canvasLayouts.length ∧
    ((mutateCanvasInfoData c).layoutOverlap = true ↔
      ∃ l ∈ c.canvasLayouts, l.overlap = 1) := by
  refine ⟨by simp [mutateCanvasInfoData, h], by simp [mutateCanvasInfoData], ?_⟩
  rw [show (mutateCanvasInfoData c).layoutOverlap =
      c.canvasLayouts.foldl (fun acc layout => acc || decide (layout.overlap = 1)) false from rfl]
  rw [foldl_or_overlap]
  simp [List.any_eq_true]

/-- Witness for the amended C3 at the concrete zero-scale canvas. -/
theorem C3_amended_no_failure_witness :
    zeroScaleCanvas.scale = 0 ∧
    ((mutateCanvasInfoData zeroScaleCanvas).scale = 0 ∧
    (mutateCanvasInfoData zeroScaleCanvas).canvasLayouts.length =
      zeroScaleCanvas.canvasLayouts.length ∧
    ((mutateCanvasInfoData zeroScaleCanvas).layoutOverlap = true ↔
      ∃ l ∈ zeroScaleCanvas.canvasLayouts, l.overlap = 1)) :=
  ⟨rfl, C3_amended_no_failure zeroScaleCanvas rfl⟩

/-- JS String.prototype.toLowerCase as used by the comparator, mapped over the
characters of the string. -/
def toLowerCase (s : String) : String :=
  String.mk (s.data.map Char.toLower)

/-- JS name.replace of the character class dash underscore, global, with a
space: every dash or underscore character becomes a space. -/
def replaceDashUnderscore (s : String) : String :=
  String.mk (s.data.map (fun c => if c = '-' ∨ c = '_' then ' ' else c))

/-- A raw layout or layout group as delivered by the server (IVertoLayout). -/
structure IVertoLayout where
  type : String
  name : String
  displayName : Option String
  resIDS : Option (List String)
  groupLayouts : Option (List String)
deriving DecidableEq

/-- A catalog entry (ILayout). -/
structure ILayout where
  id : String
  label : String
  type : String
  reservationIds : List String
  belongsToAGroup : Bool
deriving DecidableEq

/-- The catalog entry built by the body of the reducer: id is the name, label
is the displayName when truthy (a JS or-default, so the empty string falls
through) and otherwise the name with dashes and underscores spaced, resIDS
defaults to the empty list, belongsToAGroup starts as false. -/
def mkEntry (layout : IVertoLayout) : ILayout :=
  { id := layout.name
    label :=
      match layout.displayName with
      | some s => if s = "" then replaceDashUnderscore layout.name else s
      | none => replaceDashUnderscore layout.name
    type := layout.type
    reservationIds := layout.resIDS.getD []
    belongsToAGroup := false }

/-- The reducer from helpers.ts: appends the entry for one raw layout to the
accumulated list. -/
def _layoutReducer (result : List ILayout) (layout : IVertoLayout) : List ILayout :=
  result.concat (mkEntry layout)

/-- The comparator from helpers.ts: compares the lowercased labels, returning
one, minus one or zero. -/
def _layoutCompare (prev next : ILayout) : Int :=
  let prevLabel := toLowerCase prev.label
  let nextLabel := toLowerCase next.label
  if prevLabel > nextLabel then 1
  else if prevLabel < nextLabel then -1
  else 0

/-- The keep-in-order relation of a comparator-based stable sort: the
comparator does not order next strictly before prev. -/
def layoutSortLe (prev next : ILayout) : Bool :=
  decide (_layoutCompare prev next ≤ 0)

/-- The flattened membership list of mungeLayoutList: every group's
groupLayouts, defaulting to empty, concatenated. -/
def layoutsPartOfGroup (layoutGroups : List IVertoLayout) : List String :=
  layoutGroups.foldl (fun cumulative layout => cumulative ++ layout.groupLayouts.getD []) []

/-- The flat-layout entries of mungeLayoutList, with belongsToAGroup set from
membership of the id in the flattened group membership list. -/
def normalList (layouts layoutGroups : List IVertoLayout) : List ILayout :=
  (layouts.foldl _layoutReducer []).map
    (fun layout =>
      { layout with belongsToAGroup := (layoutsPartOfGroup layoutGroups).contains layout.id })

/-- The group entries of mungeLayoutList, reduced with the same reducer and
never re-flagged. -/
def groupList (layoutGroups : List IVertoLayout) : List ILayout :=
  layoutGroups.foldl _layoutReducer []

/-- mungeLayoutList from helpers.ts: group entries first, then flat entries,
sorted by the comparator with the stable JS Array.prototype.sort, embedded as
the stable mergeSort on the keep-in-order relation of the comparator. -/
def mungeLayoutList (layouts layoutGroups : List IVertoLayout) : List ILayout :=
  (groupList layoutGroups ++ normalList layouts layoutGroups).mergeSort layoutSortLe

lemma foldl_layoutReducer (l : List IVertoLayout) (acc : List ILayout) :
    l.foldl _layoutReducer acc = acc ++ l.map mkEntry := by
  induction l generalizing acc with
  | nil => simp
  | cons hd tl ih => simp [_layoutReducer, ih]

lemma layoutSortLe_iff (a b : ILayout) :
    layoutSortLe a b = true ↔ toLowerCase a.label ≤ toLowerCase b.label := by
  unfold layoutSortLe _layoutCompare
  dsimp only
  split_ifs with h1 h2
  · simp only [decide_eq_true_eq]
    exact ⟨fun h => by omega, fun h => absurd h1 (not_lt.mpr h)⟩
  · simp only [decide_eq_true_eq]
    exact ⟨fun _ => le_of_lt h2, fun _ => by omega⟩
  · simp only [decide_eq_true_eq]
    exact ⟨fun _ => not_lt.mp h1, fun _ => by omega⟩

lemma layoutSortLe_trans (a b c : ILayout) :
    layoutSortLe a b → layoutSortLe b c → layoutSortLe a c := by
  simp only [layoutSortLe_iff]
  exact le_trans

lemma layoutSortLe_total (a b : ILayout) :
    layoutSortLe a b || layoutSortLe b a := by
  rcases le_total (toLowerCase a.label) (toLowerCase b.label) with h | h <;>
    simp [layoutSortLe_iff, h]

/-- A flat layout named room-1 with no display name, for the C5 witness. -/
def roomLayout : IVertoLayout :=
  { type := "layout", name := "room-1", displayName := none, resIDS := none, groupLayouts := none }

/-- A group listing room-1 twice in groupLayouts, for the C5 witness: the
duplicate shows that membership is existence, not count. -/
def gridGroup : IVertoLayout :=
  { type := "group", name := "grid-group", displayName := none, resIDS := none,
    groupLayouts := some ["room-1", "room-1"] }

/-- C5: the catalog is a permutation of the group entries followed by the flat
entries; a flat entry at index i carries belongsToAGroup true exactly when the
input layout name at index i occurs in the flattened union of all groups'
groupLayouts lists, and every group entry carries belongsToAGroup false. -/
theorem C5_membership_flag (layouts layoutGroups : List IVertoLayout) :
    (mungeLayoutList layouts layoutGroups).Perm
        (groupList layoutGroups ++ normalList layouts layoutGroups) ∧
    (normalList layouts layoutGroups).length = layouts.length ∧
    (∀ i (h1 : i < layouts.length) (h2 : i < (normalList layouts layoutGroups).length),
      (((normalList layouts layoutGroups).get ⟨i, h2⟩).belongsToAGroup = true ↔
        (layouts.get ⟨i, h1⟩).name ∈ layoutsPartOfGroup layoutGroups)) ∧
    (∀ e ∈ groupList layoutGroups, e.belongsToAGroup = false) := by
  refine ⟨List.mergeSort_perm _ _, ?_, ?_, ?_⟩
  · simp [normalList, foldl_layoutReducer]
  · intro i h1 h2
    simp only [normalList, foldl_layoutReducer, List.nil_append, List.get_eq_getElem,
      List.getElem_map, mkEntry]
    rw [List.contains, List.elem_iff]
  · intro e he
    simp only [groupList, foldl_layoutReducer, List.nil_append, List.mem_map] at he
    obtain ⟨g, -, rfl⟩ := he
    rfl

/-- Witness for C5: with the concrete room-1 layout and the grid group listing
room-1 twice, the flat entry at index zero is flagged as belonging to a group,
and the single group entry is not flagged. -/
theorem C5_membership_flag_witness :
    (((normalList [roomLayout] [gridGroup]).get ⟨0, by decide⟩).belongsToAGroup = true ↔
      ([roomLayout].get ⟨0, by decide⟩).name ∈ layoutsPartOfGroup [gridGroup]) ∧
    ((normalList [roomLayout] [gridGroup]).get ⟨0, by decide⟩).belongsToAGroup = true ∧
    (∀ e ∈ groupList [gridGroup], e.belongsToAGroup = false) :=
  ⟨(C5_membership_flag [roomLayout] [gridGroup]).2.2.1 0 (by decide) (by decide),
   by decide,
   (C5_membership_flag [roomLayout] [gridGroup]).2.2.2⟩

/-- A flat layout labelled alpha, for the C6 sort example. -/
def alphaLayout : IVertoLayout :=
  { type := "layout", name := "alpha-x", displayName := some "alpha", resIDS := none,
    groupLayouts := none }

/-- A flat layout labelled Beta, for the C6 sort example. -/
def betaLayout : IVertoLayout :=
  { type := "layout", name := "beta-2", displayName := some "Beta", resIDS := none,
    groupLayouts := none }

/-- A group labelled Beta, for the C6 sort example: as a group entry it
precedes the flat Beta entry in the pre-sort concatenation. -/
def betaGroup : IVertoLayout :=
  { type := "group", name := "beta-1", displayName := some "Beta", resIDS := none,
    groupLayouts := none }

/-- C6: the merged catalog is sorted ascending by lowercased label, and the
sort is stable: filtering the result by any fixed lowercase label gives the
same sequence as filtering the pre-sort concatenation (groups first, then flat
layouts); concretely labels Beta, alpha, Beta sort to alpha, Beta, Beta with
the two Beta entries keeping their relative order (group id beta-1 before flat
id beta-2). -/
theorem C6_sorted_stable (layouts layoutGroups : List IVertoLayout) :
    (mungeLayoutList layouts layoutGroups).Pairwise
      (fun a b => toLowerCase a.label ≤ toLowerCase b.label) ∧
    (∀ k : String,
      (mungeLayoutList layouts layoutGroups).filter (fun e => toLowerCase e.label == k) =
        (groupList layoutGroups ++ normalList layouts layoutGroups).filter
          (fun e => toLowerCase e.label == k)) ∧
    (mungeLayoutList [alphaLayout, betaLayout] [betaGroup]).map ILayout.label =
      ["alpha", "Beta", "Beta"] ∧
    (mungeLayoutList [alphaLayout, betaLayout] [betaGroup]).map ILayout.id =
      ["alpha-x", "beta-1", "beta-2"] := by
  refine ⟨?_, ?_, ?_, ?_⟩
  · exact (List.sorted_mergeSort layoutSortLe_trans layoutSortLe_total _).imp
      (fun hab => (layoutSortLe_iff _ _).mp hab)
  · intro k
    have hpw : ((groupList layoutGroups ++ normalList layouts layoutGroups).filter
        (fun e => toLowerCase e.label == k)).Pairwise (fun a b => layoutSortLe a b) := by
      apply List.pairwise_of_forall_mem_list
      intro a ha b hb
      have hak : toLowerCase a.label = k := by
        simpa using (List.mem_filter.mp ha).2
      have hbk : toLowerCase b.label = k := by
        simpa using (List.mem_filter.mp hb).2
      exact (layoutSortLe_iff a b).mpr (by rw [hak, hbk])
    have hsub : List.Sublist
        ((groupList layoutGroups ++ normalList layouts layoutGroups).filter
          (fun e => toLowerCase e.label == k))
        (List.mergeSort (groupList layoutGroups ++ normalList layouts layoutGroups)
          layoutSortLe) :=
      List.sublist_mergeSort layoutSortLe_trans layoutSortLe_total hpw
        (List.filter_sublist _)
    have hsub2 := hsub.filter (fun e => toLowerCase e.label == k)
    simp only [List.filter_filter, Bool.and_self] at hsub2
    have hlen : ((List.mergeSort (groupList layoutGroups ++ normalList layouts layoutGroups)
          layoutSortLe).filter (fun e => toLowerCase e.label == k)).length =
        ((groupList layoutGroups ++ normalList layouts layoutGroups).filter
          (fun e => toLowerCase e.label == k)).length :=
      ((List.mergeSort_perm _ layoutSortLe).filter _).length_eq
    exact (hsub2.eq_of_length hlen.symm).symm
  · simp +decide [mungeLayoutList, groupList, normalList, layoutsPartOfGroup,
      _layoutReducer, mkEntry, alphaLayout, betaLayout, betaGroup,
      List.mergeSort, List.splitInTwo, List.splitAt, List.splitAt.go, List.merge,
      layoutSortLe, _layoutCompare, toLowerCase]
  · simp +decide [mungeLayoutList, groupList, normalList, layoutsPartOfGroup,
      _layoutReducer, mkEntry, alphaLayout, betaLayout, betaGroup,
      List.mergeSort, List.splitInTwo, List.splitAt, List.splitAt.go, List.merge,
      layoutSortLe, _layoutCompare, toLowerCase]

/-- C7: the merged catalog always has exactly one entry per input: its length
is the number of flat layouts plus the number of groups, for all inputs
including empty ones. -/
theorem C7_catalog_length (layouts layoutGroups : List IVertoLayout) :
    (mungeLayoutList layouts layoutGroups).length =
      layouts.length + layoutGroups.length := by
  simp only [mungeLayoutList, List.length_mergeSort, List.length_append,
    groupList, normalList, foldl_layoutReducer, List.nil_append, List.length_map]
  omega

/-- A layout whose displayName is supplied but empty, refuting C8 as stated. -/
def emptyDisplayLayout : IVertoLayout :=
  { type := "layout", name := "2x2_grid", displayName := some "", resIDS := none,
    groupLayouts := none }

/-- Counterexample to C8: with a supplied but empty displayName, the entry's
label is not that displayName (the empty string) but the spaced name, because
the source uses a JS or-default that treats the empty string as absent. -/
theorem C8_counterexample :
    (_layoutReducer [] emptyDisplayLayout).map ILayout.label = ["2x2 grid"] ∧
    ("2x2 grid" : String) ≠ "" ∧
    emptyDisplayLayout.displayName = some "" := by
  refine ⟨by decide, by decide, rfl⟩

/-- A layout with displayName Grid View, for the C8 examples. -/
def gridViewLayout : IVertoLayout :=
  { type := "layout", name := "2x2_grid", displayName := some "Grid View", resIDS := none,
    groupLayouts := none }

/-- C8 amended: the entry's label equals the supplied displayName when that
displayName is non-empty; when displayName is absent or the empty string the
label is the name with every dash and underscore replaced by a space; name
2x2_grid yields label 2x2 grid when no display name applies, and Grid View
when that display name is supplied. -/
theorem C8_label_derivation (result : List ILayout) (layout : IVertoLayout) :
    (∀ s, layout.displayName = some s → s ≠ "" →
      (_layoutReducer result layout).map ILayout.label = result.map ILayout.label ++ [s]) ∧
    (layout.displayName = none ∨ layout.displayName = some "" →
      (_layoutReducer result layout).map ILayout.label =
        result.map ILayout.label ++ [replaceDashUnderscore layout.name]) ∧
    replaceDashUnderscore "2x2_grid" = "2x2 grid" ∧
    (_layoutReducer [] gridViewLayout).map ILayout.label = ["Grid View"] := by
  refine ⟨?_, ?_, by decide, by decide⟩
  · intro s hs hne
    simp [_layoutReducer, mkEntry, hs, hne]
  · rintro (h | h) <;> simp [_layoutReducer, mkEntry, h]

/-- Witness for the amended C8 at the two concrete layouts: the non-empty
displayName branch at gridViewLayout and the empty-displayName branch at
emptyDisplayLayout. -/
theorem C8_label_derivation_witness :
    ((_layoutReducer [] gridViewLayout).map ILayout.label =
      ([] : List ILayout).map ILayout.label ++ ["Grid View"]) ∧
    ((_layoutReducer [] emptyDisplayLayout).map ILayout.label =
      ([] : List ILayout).map ILayout.label ++ [replaceDashUnderscore emptyDisplayLayout.name]) :=
  ⟨(C8_label_derivation [] gridViewLayout).1 "Grid View" rfl (by decide),
   (C8_label_derivation [] emptyDisplayLayout).2.1 (Or.inr rfl)⟩

/-- A media track constraint object: the deviceId narrowing the source can
install (as the exact id) plus whatever other constraint fields the caller put
on the object, carried opaquely. -/
structure MediaTrackConstraints where
  deviceId : Option String
  rest : List (String × String)
deriving DecidableEq

/-- A JS audio or video constraint value: a boolean or a constraint object. -/
inductive AVConstraint where
  | bool (b : Bool)
  | obj (c : MediaTrackConstraints)
deriving DecidableEq

/-- The caller's CallOptions as far as getMediaConstraints reads them; none
models an absent field. -/
structure CallOptions where
  audio : Option AVConstraint := none
  micId : Option String := none
  micLabel : Option String := none
  video : Option AVConstraint := none
  camId : Option String := none
  camLabel : Option String := none
  rest : List (String × String) := []
deriving DecidableEq

/-- The MediaStreamConstraints result of getMediaConstraints. -/
structure MediaStreamConstraints where
  audio : AVConstraint
  video : AVConstraint
deriving DecidableEq

/-- JS truthiness of a possibly absent string: present and non-empty. -/
def truthyStr (s : Option String) : Bool :=
  match s with
  | some v => v ≠ ""
  | none => false

/-- One arm of getMediaConstraints (the audio and video blocks are textually
symmetric in the source). Takes the external assureDeviceId resolver already
composed with the catch-to-null handler (none models a rejected promise), the
boolean default of the kind, the preferred device id and label options, and the
caller's original field value. Returns the value placed into the result
together with the post-call state of the caller's field: when the caller
supplied a constraint object and a usable id resolves, the source writes
deviceId onto that very object through the alias, so the post-call field is the
mutated object; in every other case the caller's field is untouched. -/
def resolveStep (assure : String → String → Option String) (fallback : Bool)
    (idOpt labelOpt : Option String) (orig : Option AVConstraint) :
    AVConstraint × Option AVConstraint :=
  let current := orig.getD (AVConstraint.bool fallback)
  if truthyStr idOpt then
    match assure (idOpt.getD "") (labelOpt.getD "") with
    | some newId =>
      if newId = "" then (current, orig)
      else
        match current with
        | AVConstraint.bool _ =>
          (AVConstraint.obj { deviceId := some newId, rest := [] }, orig)
        | AVConstraint.obj c =>
          (AVConstraint.obj { c with deviceId := some newId },
           some (AVConstraint.obj { c with deviceId := some newId }))
    | none => (current, orig)
  else (current, orig)

/-- getMediaConstraints from helpers.ts: audio defaults to true, video to
false; each preferred device id, when truthy, is resolved through the external
assureDeviceId with rejection caught to null, and a usable resolved id narrows
the constraint to an exact deviceId, coercing a boolean to a fresh empty object
or mutating the caller's object in place. The embedding returns the result
paired with the post-call state of the caller's options. -/
def getMediaConstraints (assureAudio assureVideo : String → String → Option String)
    (options : CallOptions) : MediaStreamConstraints × CallOptions :=
  let audioStep := resolveStep assureAudio true options.micId options.micLabel options.audio
  let videoStep := resolveStep assureVideo false options.camId options.camLabel options.video
  ({ audio := audioStep.1, video := videoStep.1 },
   { options with audio := audioStep.2, video := videoStep.2 })

lemma resolveStep_not_truthy (assure : String → String → Option String) (fallback : Bool)
    (idOpt labelOpt : Option String) (orig : Option AVConstraint)
    (h : truthyStr idOpt = false) :
    resolveStep assure fallback idOpt labelOpt orig =
      (orig.getD (AVConstraint.bool fallback), orig) := by
  simp [resolveStep, h]

lemma resolveStep_rejected (fallback : Bool) (idOpt labelOpt : Option String)
    (orig : Option AVConstraint) :
    resolveStep (fun _ _ => none) fallback idOpt labelOpt orig =
      (orig.getD (AVConstraint.bool fallback), orig) := by
  by_cases h : truthyStr idOpt = true
  · simp [resolveStep, h]
  · simp [resolveStep, Bool.of_not_eq_true h]

lemma resolveStep_snd_of_bool (assure : String → String → Option String) (fallback : Bool)
    (idOpt labelOpt : Option String) (orig : Option AVConstraint)
    (h : (∃ b, orig = some (AVConstraint.bool b)) ∨ orig = none) :
    (resolveStep assure fallback idOpt labelOpt orig).2 = orig := by
  have hcur : ∃ b, orig.getD (AVConstraint.bool fallback) = AVConstraint.bool b := by
    rcases h with ⟨b, rfl⟩ | rfl
    · exact ⟨b, rfl⟩
    · exact ⟨fallback, rfl⟩
  obtain ⟨b, hb⟩ := hcur
  unfold resolveStep
  rw [hb]
  by_cases ht : truthyStr idOpt = true
  · simp only [ht, if_true]
    cases hres : assure (idOpt.getD "") (labelOpt.getD "")
    · rfl
    · rename_i v
      by_cases hv : v = "" <;> simp [hv]
  · simp [Bool.of_not_eq_true ht]

/-- A resolver that accepts every requested id unchanged. -/
def okResolver : String → String → Option String :=
  fun requestedId _ => some requestedId

/-- A resolver that resolves every request to a fixed other device. -/
def altResolver : String → String → Option String :=
  fun _ _ => some "other-device"

/-- Options whose audio is a caller-supplied constraint object and whose mic id
resolves, exhibiting the in-place mutation of the caller's object. -/
def objAudioOptions : CallOptions :=
  { audio := some (AVConstraint.obj { deviceId := none, rest := [("echoCancellation", "true")] })
    micId := some "mic-1" }

/-- Counterexample to C4: getMediaConstraints does mutate caller input. With an
object-valued audio option and a resolvable mic id, the caller's options differ
after the call: their audio object has gained deviceId exact mic-1. -/
theorem C4_counterexample :
    (getMediaConstraints okResolver okResolver objAudioOptions).2 ≠ objAudioOptions ∧
    (getMediaConstraints okResolver okResolver objAudioOptions).2.audio =
      some (AVConstraint.obj
        { deviceId := some "mic-1", rest := [("echoCancellation", "true")] }) := by
  exact ⟨by decide, by decide⟩

/-- C4 amended: mutateCanvasInfoData constructs a fresh record from its input,
but getMediaConstraints mutates caller input in the one object-valued case:
after the call every options field other than audio and video is unchanged,
audio and video are unchanged whenever they were absent or boolean, the whole
options value is unchanged when both resolutions are skipped or rejected, and
(per the counterexample) a caller-supplied constraint object is mutated in
place when its device id resolves. -/
theorem C4_amended_mutation (assureAudio assureVideo : String → String → Option String)
    (options : CallOptions) :
    ((getMediaConstraints assureAudio assureVideo options).2.micId = options.micId ∧
     (getMediaConstraints assureAudio assureVideo options).2.micLabel = options.micLabel ∧
     (getMediaConstraints assureAudio assureVideo options).2.camId = options.camId ∧
     (getMediaConstraints assureAudio assureVideo options).2.camLabel = options.camLabel ∧
     (getMediaConstraints assureAudio assureVideo options).2.rest = options.rest) ∧
    ((∃ b, options.audio = some (AVConstraint.bool b)) ∨ options.audio = none →
      (getMediaConstraints assureAudio assureVideo options).2.audio = options.audio) ∧
    ((∃ b, options.video = some (AVConstraint.bool b)) ∨ options.video = none →
      (getMediaConstraints assureAudio assureVideo options).2.video = options.video) ∧
    (getMediaConstraints (fun _ _ => none) (fun _ _ => none) options).2 = options := by
  refine ⟨⟨rfl, rfl, rfl, rfl, rfl⟩, ?_, ?_, ?_⟩
  · intro h
    exact resolveStep_snd_of_bool assureAudio true options.micId options.micLabel
      options.audio h
  · intro h
    exact resolveStep_snd_of_bool assureVideo false options.camId options.camLabel
      options.video h
  · simp [getMediaConstraints, resolveStep_rejected]

/-- Options carrying a boolean audio, an absent video and resolvable device
ids, for the C4 amended witness. -/
def boolAudioOptions : CallOptions :=
  { audio := some (AVConstraint.bool true), micId := some "mic-9", camId := some "cam-9" }

/-- Witness for the amended C4 at concrete options with boolean audio and
absent video: nothing of the caller's options changes in those cases. -/
theorem C4_amended_mutation_witness :
    ((getMediaConstraints okResolver okResolver boolAudioOptions).2.micId =
        boolAudioOptions.micId ∧
     (getMediaConstraints okResolver okResolver boolAudioOptions).2.micLabel =
        boolAudioOptions.micLabel ∧
     (getMediaConstraints okResolver okResolver boolAudioOptions).2.camId =
        boolAudioOptions.camId ∧
     (getMediaConstraints okResolver okResolver boolAudioOptions).2.camLabel =
        boolAudioOptions.camLabel ∧
     (getMediaConstraints okResolver okResolver boolAudioOptions).2.rest =
        boolAudioOptions.rest) ∧
    (getMediaConstraints okResolver okResolver boolAudioOptions).2.audio =
        boolAudioOptions.audio ∧
    (getMediaConstraints okResolver okResolver boolAudioOptions).2.video =
        boolAudioOptions.video ∧
    (getMediaConstraints (fun _ _ => none) (fun _ _ => none) boolAudioOptions).2 =
        boolAudioOptions :=
  ⟨(C4_amended_mutation okResolver okResolver boolAudioOptions).1,
   (C4_amended_mutation okResolver okResolver boolAudioOptions).2.1 (Or.inl ⟨true, rfl⟩),
   (C4_amended_mutation okResolver okResolver boolAudioOptions).2.2.1 (Or.inr rfl),
   (C4_amended_mutation okResolver okResolver boolAudioOptions).2.2.2⟩

/-- C9: when the mic resolver rejects, getMediaConstraints never fails and
returns audio exactly as defaulted (true) or caller-supplied, and symmetrically
for video (default false) when the cam resolver rejects; concretely a bad mic
id with a rejecting resolver yields audio true and video false. -/
theorem C9_resolver_rejection_fallback :
    (∀ (options : CallOptions) (assureVideo : String → String → Option String),
      (getMediaConstraints (fun _ _ => none) assureVideo options).1.audio =
        options.audio.getD (AVConstraint.bool true)) ∧
    (∀ (options : CallOptions) (assureAudio : String → String → Option String),
      (getMediaConstraints assureAudio (fun _ _ => none) options).1.video =
        options.video.getD (AVConstraint.bool false)) ∧
    getMediaConstraints (fun _ _ => none) (fun _ _ => none) { micId := some "bad-id" } =
      ({ audio := AVConstraint.bool true, video := AVConstraint.bool false },
       { micId := some "bad-id" }) := by
  refine ⟨?_, ?_, by decide⟩
  · intro options assureVideo
    show (resolveStep (fun _ _ => none) true options.micId options.micLabel options.audio).1 =
      options.audio.getD (AVConstraint.bool true)
    rw [resolveStep_rejected]
  · intro options assureAudio
    show (resolveStep (fun _ _ => none) false options.camId options.camLabel options.video).1 =
      options.video.getD (AVConstraint.bool false)
    rw [resolveStep_rejected]

/-- C10: an empty-string micId (respectively camId) is falsy, so no device
resolution happens for that kind: the result is the same whatever the resolver
would answer, the returned audio (video) is exactly the defaulted or
caller-supplied value, and the caller's field is untouched. -/
theorem C10_empty_string_device_id (options : CallOptions)
    (assureAudio assureAudio2 assureVideo assureVideo2 : String → String → Option String) :
    (options.micId = some "" →
      ((getMediaConstraints assureAudio assureVideo options).1.audio =
        options.audio.getD (AVConstraint.bool true) ∧
       (getMediaConstraints assureAudio assureVideo options).2.audio = options.audio ∧
       getMediaConstraints assureAudio assureVideo options =
         getMediaConstraints assureAudio2 assureVideo options)) ∧
    (options.camId = some "" →
      ((getMediaConstraints assureAudio assureVideo options).1.video =
        options.video.getD (AVConstraint.bool false) ∧
       (getMediaConstraints assureAudio assureVideo options).2.video = options.video ∧
       getMediaConstraints assureAudio assureVideo options =
         getMediaConstraints assureAudio assureVideo2 options)) := by
  constructor
  · intro h
    have ht : truthyStr options.micId = false := by rw [h]; rfl
    refine ⟨?_, ?_, ?_⟩
    · show (resolveStep assureAudio true options.micId options.micLabel options.audio).1 =
        options.audio.getD (AVConstraint.bool true)
      rw [resolveStep_not_truthy _ _ _ _ _ ht]
    · show (resolveStep assureAudio true options.micId options.micLabel options.audio).2 =
        options.audio
      rw [resolveStep_not_truthy _ _ _ _ _ ht]
    · unfold getMediaConstraints
      rw [resolveStep_not_truthy assureAudio true _ _ _ ht,
        resolveStep_not_truthy assureAudio2 true _ _ _ ht]
  · intro h
    have ht : truthyStr options.camId = false := by rw [h]; rfl
    refine ⟨?_, ?_, ?_⟩
    · show (resolveStep assureVideo false options.camId options.camLabel options.video).1 =
        options.video.getD (AVConstraint.bool false)
      rw [resolveStep_not_truthy _ _ _ _ _ ht]
    · show (resolveStep assureVideo false options.camId options.camLabel options.video).2 =
        options.video
      rw [resolveStep_not_truthy _ _ _ _ _ ht]
    · unfold getMediaConstraints
      rw [resolveStep_not_truthy assureVideo false _ _ _ ht,
        resolveStep_not_truthy assureVideo2 false _ _ _ ht]

/-- Options with empty-string mic and cam ids, for the C10 witness. -/
def emptyIdOptions : CallOptions :=
  { audio := some (AVConstraint.bool false), micId := some "", camId := some "" }

/-- Witness for C10 at concrete options whose mic and cam ids are the empty
string, with two resolvers that would answer differently if consulted. -/
theorem C10_empty_string_device_id_witness :
    ((getMediaConstraints okResolver okResolver emptyIdOptions).1.audio =
        emptyIdOptions.audio.getD (AVConstraint.bool true) ∧
     (getMediaConstraints okResolver okResolver emptyIdOptions).2.audio =
        emptyIdOptions.audio ∧
     getMediaConstraints okResolver okResolver emptyIdOptions =
       getMediaConstraints altResolver okResolver emptyIdOptions) ∧
    ((getMediaConstraints okResolver okResolver emptyIdOptions).1.video =
        emptyIdOptions.video.getD (AVConstraint.bool false) ∧
     (getMediaConstraints okResolver okResolver emptyIdOptions).2.video =
        emptyIdOptions.video ∧
     getMediaConstraints okResolver okResolver emptyIdOptions =
       getMediaConstraints okResolver altResolver emptyIdOptions) :=
  ⟨(C10_empty_string_device_id emptyIdOptions okResolver altResolver okResolver altResolver).1
      rfl,
   (C10_empty_string_device_id emptyIdOptions okResolver altResolver okResolver altResolver).2
      rfl⟩
